import Mathlib

/-!
Verification of the pywr-next simulation-kernel specification against the
source. All floating-point quantities are embedded as rationals (`Rat`);
machine indices are `Nat`. Fallible Rust functions returning
`Result<_, PywrError>` are embedded as `Except PywrError _`; functions that
can panic (array indexing, `unwrap`) are embedded with an explicit
`ComputeResult.panicked` constructor so that panic-freedom is a provable
statement rather than an assumption.
-/

/-- Error kind of the engine, a closed sum (`PywrError` in the source; the
variants used by the embedded functions, from `src/pywr-core/src/metric.rs`
callees and the error-handling section of the design). -/
inductive PywrError where
  | nodeIndexNotFound (idx : Nat)
  | edgeIndexNotFound (idx : Nat)
  | parameterIndexNotFound (idx : Nat)
  | multiParameterIndexNotFound (idx : Nat)
  | multiParameterKeyNotFound (key : String)
  | aggregatedNodeIndexNotFound (idx : Nat)
  | aggregatedStorageNodeIndexNotFound (idx : Nat)
  | virtualStorageIndexNotFound (idx : Nat)
  | timestepIndexOutOfRange
  | divisionByZero
  | internalParameterError (msg : String)
  | unboundedConstraintValue
  deriving DecidableEq, Repr

/-- Result of running a Rust function that may return `Ok`, return `Err`,
or panic. Rust's infallible-looking indexing (`values[i]`, ndarray
`array[[i]]`) panics out of bounds; that outcome is the `panicked`
constructor. -/
inductive ComputeResult where
  | ok (v : Rat)
  | err (e : PywrError)
  | panicked (msg : String)
  deriving DecidableEq, Repr

deriving instance DecidableEq for Except

/-- Timestep as used by the embedded parameter `compute` functions: the
ordinal index (`timestep.index`) and the calendar month of `timestep.date`
(`timestep.date.month() as usize`, 1-based: January = 1, ..., December = 12,
per the `time` crate and the calendar-semantics section of the design). -/
structure Timestep where
  index : Nat
  month : Nat
  deriving DecidableEq, Repr

/-- Modelled from the spec: the per-scenario network state component of
`State` — vectors of edge flows, node in/out flows, node volumes and
virtual-storage volumes, keyed by dense integer handles (`pywr-core`'s
`NetworkState` is not under src/; only its accessors are called from
`src/pywr-core/src/metric.rs`). -/
structure NetworkState where
  nodeInFlows : List Rat
  nodeOutFlows : List Rat
  nodeVolumes : List Rat
  edgeFlows : List Rat
  virtualStorageVolumes : List Rat
  deriving DecidableEq, Repr

/-- Modelled from the spec: the per-scenario `State` record — the network
state plus parameter values, index-parameter values, multi-parameter value
maps, and per-parameter opaque internal blobs (type parameter `α`, since the
blobs are `Box<dyn Any>` owned by individual parameters). -/
structure State (α : Type) where
  networkState : NetworkState
  parameterValues : List Rat
  indexParameterValues : List Nat
  multiParameterValues : List (List (String × Rat))
  parameterInternalStates : List α

/-- Modelled from the spec: `State::get_network_state` returns the network
state component (a read-only borrow in the source). -/
def State.get_network_state {α : Type} (s : State α) : NetworkState :=
  s.networkState

/-- Modelled from the spec: `NetworkState::get_node_in_flow` reads the
stored in-flow of a node, `NodeIndexNotFound` when the handle is not valid
against this state. -/
def NetworkState.get_node_in_flow (ns : NetworkState) (idx : Nat) : Except PywrError Rat :=
  match ns.nodeInFlows.get? idx with
  | some v => .ok v
  | none => .error (.nodeIndexNotFound idx)

/-- Modelled from the spec: `NetworkState::get_node_out_flow` reads the
stored out-flow of a node. -/
def NetworkState.get_node_out_flow (ns : NetworkState) (idx : Nat) : Except PywrError Rat :=
  match ns.nodeOutFlows.get? idx with
  | some v => .ok v
  | none => .error (.nodeIndexNotFound idx)

/-- Modelled from the spec: `NetworkState::get_node_volume` reads the
stored volume of a storage node. -/
def NetworkState.get_node_volume (ns : NetworkState) (idx : Nat) : Except PywrError Rat :=
  match ns.nodeVolumes.get? idx with
  | some v => .ok v
  | none => .error (.nodeIndexNotFound idx)

/-- Modelled from the spec: `NetworkState::get_edge_flow` reads the stored
flow of an edge. -/
def NetworkState.get_edge_flow (ns : NetworkState) (idx : Nat) : Except PywrError Rat :=
  match ns.edgeFlows.get? idx with
  | some v => .ok v
  | none => .error (.edgeIndexNotFound idx)

/-- Modelled from the spec: `NetworkState::get_virtual_storage_volume`
reads the stored volume of a virtual storage. -/
def NetworkState.get_virtual_storage_volume (ns : NetworkState) (idx : Nat) : Except PywrError Rat :=
  match ns.virtualStorageVolumes.get? idx with
  | some v => .ok v
  | none => .error (.virtualStorageIndexNotFound idx)

/-- Modelled from the spec: proportional volume is `volume / max_volume`
with `max_volume = 0` defined as 0 (not NaN). -/
def NetworkState.get_node_proportional_volume (ns : NetworkState) (idx : Nat)
    (maxVolume : Rat) : Except PywrError Rat := do
  let v ← ns.get_node_volume idx
  pure (if maxVolume = 0 then 0 else v / maxVolume)

/-- Modelled from the spec: proportional volume of a virtual storage, same
zero-denominator convention as for nodes. -/
def NetworkState.get_virtual_storage_proportional_volume (ns : NetworkState) (idx : Nat)
    (maxVolume : Rat) : Except PywrError Rat := do
  let v ← ns.get_virtual_storage_volume idx
  pure (if maxVolume = 0 then 0 else v / maxVolume)

/-- Modelled from the spec: `State::get_parameter_value` reads a previously
stored scalar parameter value. -/
def State.get_parameter_value {α : Type} (s : State α) (idx : Nat) : Except PywrError Rat :=
  match s.parameterValues.get? idx with
  | some v => .ok v
  | none => .error (.parameterIndexNotFound idx)

/-- Modelled from the spec: `State::get_multi_parameter_value` reads one
keyed entry of a previously stored multi-value parameter result. -/
def State.get_multi_parameter_value {α : Type} (s : State α) (idx : Nat)
    (key : String) : Except PywrError Rat :=
  match s.multiParameterValues.get? idx with
  | none => .error (.multiParameterIndexNotFound idx)
  | some kvs =>
    match kvs.lookup key with
    | some v => .ok v
    | none => .error (.multiParameterKeyNotFound key)

/-- Dynamic constraint value of a node attribute
(`ConstraintValue` in `pywr_core::node`): absent (unbounded), a scalar, or a
dynamic value read from a stored parameter. The source's dynamic variant
holds a `Metric`; in this embedding it is restricted to the
parameter-reading metrics to keep constraint evaluation well-founded — none
of the verified claims depends on a constraint that is itself a compound
metric. -/
inductive ConstraintValue where
  | none
  | scalar (v : Rat)
  | parameterRef (idx : Nat)
  deriving DecidableEq, Repr

/-- Modelled from the spec: evaluating a `ConstraintValue` against the
current state. `ConstraintValue::None` denotes an unbounded (infinite)
constraint, which has no rational value; the embedding surfaces it as a
distinguished error, and no verified claim evaluates an unbounded
constraint. -/
def ConstraintValue.eval {α : Type} (cv : ConstraintValue) (s : State α) :
    Except PywrError Rat :=
  match cv with
  | .none => .error .unboundedConstraintValue
  | .scalar v => .ok v
  | .parameterRef idx => s.get_parameter_value idx

/-- Modelled from the spec: a node's dynamic attributes as needed by metric
evaluation — `max_flow` and, for storage nodes, `max_volume`. -/
structure Node where
  maxFlow : ConstraintValue
  maxVolume : ConstraintValue
  deriving DecidableEq, Repr

/-- Modelled from the spec: an aggregated node is a named set of member
nodes (`AggregatedNode::get_nodes`). -/
structure AggregatedNode where
  nodes : List Nat
  deriving DecidableEq, Repr

/-- Modelled from the spec: an aggregated storage node is a set of storage
members whose volume is the sum of the members'. -/
structure AggregatedStorageNode where
  nodes : List Nat
  deriving DecidableEq, Repr

/-- Modelled from the spec: the dynamic attribute of a virtual storage
needed by metric evaluation — its `max_volume`. -/
structure VirtualStorage where
  maxVolume : ConstraintValue
  deriving DecidableEq, Repr

/-- Modelled from the spec: the read-only network model as seen by
`Metric::get_value` — arenas of nodes, aggregated nodes, aggregated storage
nodes and virtual storages addressed by dense handles. -/
structure Network where
  nodes : List Node
  aggregatedNodes : List AggregatedNode
  aggregatedStorageNodes : List AggregatedStorageNode
  virtualStorageNodes : List VirtualStorage
  deriving DecidableEq, Repr

/-- Modelled from the spec: `Network::get_node`. -/
def Network.get_node (net : Network) (idx : Nat) : Except PywrError Node :=
  match net.nodes.get? idx with
  | some n => .ok n
  | none => .error (.nodeIndexNotFound idx)

/-- Modelled from the spec: `Network::get_aggregated_node`. -/
def Network.get_aggregated_node (net : Network) (idx : Nat) :
    Except PywrError AggregatedNode :=
  match net.aggregatedNodes.get? idx with
  | some n => .ok n
  | none => .error (.aggregatedNodeIndexNotFound idx)

/-- Modelled from the spec: `Network::get_aggregated_storage_node`. -/
def Network.get_aggregated_storage_node (net : Network) (idx : Nat) :
    Except PywrError AggregatedStorageNode :=
  match net.aggregatedStorageNodes.get? idx with
  | some n => .ok n
  | none => .error (.aggregatedStorageNodeIndexNotFound idx)

/-- Modelled from the spec: `Network::get_virtual_storage_node`. -/
def Network.get_virtual_storage_node (net : Network) (idx : Nat) :
    Except PywrError VirtualStorage :=
  match net.virtualStorageNodes.get? idx with
  | some n => .ok n
  | none => .error (.virtualStorageIndexNotFound idx)

/-- Modelled from the spec: `Node::get_current_max_flow` evaluates the
node's `max_flow` constraint value against the current state. -/
def Node.get_current_max_flow {α : Type} (n : Node) (s : State α) :
    Except PywrError Rat :=
  n.maxFlow.eval s

/-- Modelled from the spec: `Node::get_current_max_volume` evaluates the
node's `max_volume` constraint value against the current state. -/
def Node.get_current_max_volume {α : Type} (n : Node) (s : State α) :
    Except PywrError Rat :=
  n.maxVolume.eval s

/-- Modelled from the spec: `VirtualStorage::get_max_volume`. -/
def VirtualStorage.get_max_volume {α : Type} (v : VirtualStorage) (s : State α) :
    Except PywrError Rat :=
  v.maxVolume.eval s

/-- Rust's `iterator.map(f).sum::<Result<f64, _>>()` over a list of
indices: evaluate `f` left to right, short-circuiting at the first error,
and sum the values. -/
def sumResults (l : List Nat) (f : Nat → Except PywrError Rat) :
    Except PywrError Rat :=
  match l with
  | [] => .ok 0
  | i :: rest => do
    let v ← f i
    let vs ← sumResults rest f
    pure (v + vs)

/-- Metric variants, from the `Metric` enum of
`src/pywr-core/src/metric.rs`. `VolumeBetweenControlCurves` holds an owned
sub-metric for the maximum volume and optional owned sub-metrics for the
upper and lower curves. -/
inductive Metric where
  | nodeInFlow (idx : Nat)
  | nodeOutFlow (idx : Nat)
  | nodeVolume (idx : Nat)
  | nodeInFlowDeficit (idx : Nat)
  | nodeProportionalVolume (idx : Nat)
  | aggregatedNodeInFlow (idx : Nat)
  | aggregatedNodeOutFlow (idx : Nat)
  | aggregatedNodeVolume (idx : Nat)
  | aggregatedNodeProportionalVolume (idx : Nat)
  | edgeFlow (idx : Nat)
  | parameterValue (idx : Nat)
  | multiParameterValue (idx : Nat) (key : String)
  | virtualStorageVolume (idx : Nat)
  | virtualStorageProportionalVolume (idx : Nat)
  | volumeBetweenControlCurves (maxVolume : Metric) (upper : Option Metric) (lower : Option Metric)
  | multiNodeInFlow (indices : List Nat) (name : String) (subName : Option String)
  | constant (v : Rat)

/-- Translation of `Metric::get_value` from `src/pywr-core/src/metric.rs`,
arm for arm. The `VolumeBetweenControlCurves` arm evaluates the maximum
volume, then the lower curve (default 0.0 when absent), then the upper
curve (default 1.0 when absent), and returns `max · (upper − lower)` with
no validation of the bounds; the `AggregatedNodeProportionalVolume` arm
divides the summed volumes by the summed current maximum volumes with no
zero-denominator check (both marked TODO in the source). -/
def Metric.get_value {α : Type} (m : Metric) (net : Network) (s : State α) :
    Except PywrError Rat :=
  match m with
  | .nodeInFlow idx => s.get_network_state.get_node_in_flow idx
  | .nodeOutFlow idx => s.get_network_state.get_node_out_flow idx
  | .nodeVolume idx => s.get_network_state.get_node_volume idx
  | .aggregatedNodeInFlow idx => do
    let node ← net.get_aggregated_node idx
    sumResults node.nodes (fun i => s.get_network_state.get_node_in_flow i)
  | .aggregatedNodeOutFlow idx => do
    let node ← net.get_aggregated_node idx
    sumResults node.nodes (fun i => s.get_network_state.get_node_out_flow i)
  | .nodeProportionalVolume idx => do
    let node ← net.get_node idx
    let maxVolume ← node.get_current_max_volume s
    s.get_network_state.get_node_proportional_volume idx maxVolume
  | .edgeFlow idx => s.get_network_state.get_edge_flow idx
  | .parameterValue idx => s.get_parameter_value idx
  | .multiParameterValue idx key => s.get_multi_parameter_value idx key
  | .virtualStorageVolume idx => s.get_network_state.get_virtual_storage_volume idx
  | .virtualStorageProportionalVolume idx => do
    let node ← net.get_virtual_storage_node idx
    let maxVolume ← node.get_max_volume s
    s.get_network_state.get_virtual_storage_proportional_volume idx maxVolume
  | .constant v => .ok v
  | .aggregatedNodeVolume idx => do
    let node ← net.get_aggregated_storage_node idx
    sumResults node.nodes (fun i => s.get_network_state.get_node_volume i)
  | .aggregatedNodeProportionalVolume idx => do
    let node ← net.get_aggregated_storage_node idx
    let volume ← sumResults node.nodes (fun i => s.get_network_state.get_node_volume i)
    let maxVolume ← sumResults node.nodes (fun i => do
      let n ← net.get_node i
      n.get_current_max_volume s)
    pure (volume / maxVolume)
  | .multiNodeInFlow indices _ _ => do
    let flow ← sumResults indices (fun i => s.get_network_state.get_node_in_flow i)
    pure flow
  | .nodeInFlowDeficit idx => do
    let node ← net.get_node idx
    let flow ← s.get_network_state.get_node_in_flow idx
    let maxFlow ← node.get_current_max_flow s
    pure (maxFlow - flow)
  | .volumeBetweenControlCurves maxVolumeMetric upper lower => do
    let maxVolume ← maxVolumeMetric.get_value net s
    let lowerValue ←
      match lower with
      | some lm => lm.get_value net s
      | Option.none => .ok 0
    let upperValue ←
      match upper with
      | some um => um.get_value net s
      | Option.none => .ok 1
    pure (maxVolume * (upperValue - lowerValue))

/-- Translation of `MonthlyProfileParameter::compute` from
`src/src/parameters/profiles/monthly.rs`: the source returns
`Ok(self.values[timestep.date.month() as usize])`, indexing the 12-element
profile array directly with the 1-based calendar month; Rust array indexing
panics when the index is out of bounds. The profile is the `values`
argument (a 12-element list in every use). -/
def MonthlyProfileParameter.compute (values : List Rat) (t : Timestep) : ComputeResult :=
  match values.get? t.month with
  | some v => .ok v
  | none => .panicked "index out of bounds"

/-- Translation of `VectorParameter::compute` from
`src/src/parameters/mod.rs`: `self.values.get(timestep.index)` returns
`Ok(*v)` when present and `Err(PywrError::TimestepIndexOutOfRange)`
otherwise. The scenario index argument is unused by the source. -/
def VectorParameter.compute (values : List Rat) (t : Timestep) (_scenarioIndex : Nat) :
    ComputeResult :=
  match values.get? t.index with
  | some v => .ok v
  | none => .err .timestepIndexOutOfRange

/-- Translation of `Array1Parameter::compute` from
`src/src/parameters/mod.rs`: `self.array[[timestep.index]]` — the source
comment notes "This panics if out-of-bounds". The scenario index argument
is unused by the source. -/
def Array1Parameter.compute (array : List Rat) (t : Timestep) (_scenarioIndex : Nat) :
    ComputeResult :=
  match array.get? t.index with
  | some v => .ok v
  | none => .panicked "ndarray: index out of bounds"

/-- Translation of `Array2Parameter::compute` from
`src/src/parameters/mod.rs`: `self.array[[timestep.index, 0]]` — the source
comment notes "This panics if out-of-bounds" and carries a
"TODO scenarios!"; column 0 is always read, whatever the scenario index.
The array is embedded row-major: one row per timestep, one column per
scenario. -/
def Array2Parameter.compute (array : List (List Rat)) (t : Timestep) (_scenarioIndex : Nat) :
    ComputeResult :=
  match array.get? t.index with
  | some row =>
    match row.get? 0 with
    | some v => .ok v
    | none => .panicked "ndarray: index out of bounds"
  | none => .panicked "ndarray: index out of bounds"

/-- Aggregated-node factors (`Factors` in `pywr_core::aggregated_node`):
either proportions or ratios over metrics. -/
inductive Factors where
  | proportion (xs : List Metric)
  | ratio (xs : List Metric)

/-- Translation of the loss-factor filter inside
`WaterTreatmentWorks::set_constraints`
(`src/pywr-schema/src/nodes/water_treatment_works.rs`): a loaded
`Metric::Constant(f)` with `f.is_zero()` is dropped (the aggregated node
does not support zero loss factors); any other metric is kept. -/
def wtw_filter_loss_factor (m : Metric) : Option Metric :=
  match m with
  | .constant f => if f = 0 then none else some (.constant f)
  | m => some m

/-- Translation of the factor-setting logic of
`WaterTreatmentWorks::set_constraints`: when a loss factor was given it is
loaded (the argument here is the loaded metric), filtered, and when it
survives the filter the aggregated node receives
`Factors::Ratio(vec![Metric::Constant(1.0), lf])`; otherwise no factors are
set. The result is the factors set on the "agg" aggregated node (`none`
when `set_aggregated_node_factors` is not called). -/
def wtw_set_constraints_factors (loadedLossFactor : Option Metric) : Option Factors :=
  match loadedLossFactor with
  | none => none
  | some lossFactor =>
    match wtw_filter_loss_factor lossFactor with
    | none => none
    | some lf => some (.ratio [.constant 1, lf])

/-- Entities created by `WaterTreatmentWorks::add_to_model`, by
`(name, sub_name)`: the link nodes are always created; the output node
"loss" and the aggregated node "agg" (over the net and loss nodes) are
created only when `self.loss_factor.is_some()`. -/
structure WtwModelAdditions where
  linkNodes : List (String × Option String)
  outputNodes : List (String × Option String)
  aggregatedNodes : List (String × Option String)

/-- Translation of `WaterTreatmentWorks::add_to_model` from
`src/pywr-schema/src/nodes/water_treatment_works.rs`, restricted to the
entities it creates (the internal edges are not needed by any claim). -/
def wtw_add_to_model (name : String) (lossFactorPresent : Bool) : WtwModelAdditions :=
  { linkNodes := [(name, some "net"), (name, some "net_soft_min_flow"),
      (name, some "net_above_soft_min_flow")]
    outputNodes := if lossFactorPresent then [(name, some "loss")] else []
    aggregatedNodes := if lossFactorPresent then [(name, some "agg")] else [] }

/-- Modelled from the spec: one transition of the stateful
`AsymmetricSwitchIndex(on, off)` index parameter, whose core implementation
(`pywr-core`'s `asymmetric` module) is not under src/ — only the schema
loader `AsymmetricSwitchIndexParameter::add_to_model` is. Per the spec it
transitions from 0 to 1 when `on != 0`, from 1 to 0 when `off != 0`, and
otherwise holds the previous value. -/
def asymmetricSwitchStep (prev onValue offValue : Nat) : Nat :=
  if prev = 0 then
    if onValue ≠ 0 then 1 else 0
  else
    if offValue ≠ 0 then 0 else prev

/-- Modelled from the spec: running the asymmetric switch over aligned
sequences of on/off input values, starting from the given internal state
(initially 0); the value computed at each timestep is the new state. -/
def asymmetricSwitchRun : Nat → List Nat → List Nat → List Nat
  | _, [], _ => []
  | _, _ :: _, [] => []
  | prev, o :: os, f :: fs =>
    let next := asymmetricSwitchStep prev o f
    next :: asymmetricSwitchRun next os fs

/-- Virtual-storage reset policy
(`VirtualStorageReset` in `pywr_core::virtual_storage`); the standard
virtual storage node always uses `Never`
(`src/pywr-schema/src/nodes/virtual_storage.rs`). -/
inductive VirtualStorageReset where
  | never
  | periodic (length offsetSteps : Nat)
  | annual (month day : Nat)
  | monthly (day : Nat)

/-- Modelled from the spec: whether the reset policy triggers at timestep
`t` of the run. `Never` never triggers; the date-based policies are
abstracted by the timestep's position for `Periodic` and are irrelevant to
the verified claims (no claim uses them), so they are modelled as
triggering by period only. -/
def VirtualStorageReset.triggersAt (r : VirtualStorageReset) (t : Timestep) : Bool :=
  match r with
  | .never => false
  | .periodic length _ => length ≠ 0 && t.index % length = 0
  | .annual month day => t.month = month && day = 1
  | .monthly _ => false

/-- Modelled from the spec: Σ factor · flow over the virtual storage's
member nodes (pairwise product of the factor list and the flow list). -/
def vsFlowDecrement : List Rat → List Rat → Rat
  | [], _ => 0
  | _, [] => 0
  | f :: fs, q :: qs => f * q + vsFlowDecrement fs qs

/-- Modelled from the spec: one step of a virtual storage's volume — if the
reset policy triggers at this timestep the volume is first restored to
`initial_volume`, then decremented by Σ factor · flow. -/
def vsStep (factors : List Rat) (initialVolume : Rat) (trigger : Bool)
    (flows : List Rat) (volume : Rat) : Rat :=
  (if trigger then initialVolume else volume) - vsFlowDecrement factors flows

/-- Modelled from the spec: the volume trajectory of a virtual storage over
a run, one flow vector per timestep, starting from timestep index `i` and
volume `volume`. -/
def vsRun (factors : List Rat) (initialVolume : Rat) (reset : VirtualStorageReset)
    (month : Nat) : Nat → Rat → List (List Rat) → List Rat
  | _, _, [] => []
  | i, volume, flows :: rest =>
    let next := vsStep factors initialVolume (reset.triggersAt ⟨i, month⟩) flows volume
    next :: vsRun factors initialVolume reset month (i + 1) next rest

/-- Flow vectors of a run are valid for a virtual storage with `n` member
nodes when each timestep supplies one non-negative flow per member (edge
flows are always ≥ 0). -/
def ValidFlowSequence (n : Nat) (seq : List (List Rat)) : Prop :=
  ∀ flows ∈ seq, flows.length = n ∧ ∀ q ∈ flows, 0 ≤ q

/-- A volume trajectory is monotonically non-increasing from the starting
volume. -/
def VolumesNonincreasing : Rat → List Rat → Prop
  | _, [] => True
  | v, w :: rest => w ≤ v ∧ VolumesNonincreasing w rest

/-- Behaviour of the two WASM exports held by `SimpleWasmParameter`'s
internal state (`src/src/parameters/simple_wasm.rs`): `set` writes one
parameter value into the instance's linear memory at
`(ptr, len, idx, value)` and `value` computes the final value from
`(ptr, len)`. The WASM side is foreign code, so each call is embedded as a
function yielding either a result or a runtime-error message (the
`RuntimeError` that `NativeFunc::call` returns). -/
structure WasmFuncs where
  setCall : Nat → Nat → Nat → Rat → Except String Unit
  valueCall : Nat → Nat → Except String Rat

/-- Translation of the `Internal` struct of
`src/src/parameters/simple_wasm.rs`: the two native functions and the
pointer into the instance's linear memory returned by `alloc`. -/
structure Internal where
  funcs : WasmFuncs
  ptr : Nat

/-- The dynamic type stored in a parameter's internal-state slot
(`Option<Box<dyn Any + Send>>` in the source): either
`SimpleWasmParameter`'s own `Internal`, or a value of some other type, for
which the `downcast_mut::<Internal>` in `compute` fails. -/
inductive AnyState where
  | internalState (i : Internal)
  | otherState (tag : Nat)

/-- Translation of `SimpleWasmParameter::setup` from
`src/src/parameters/simple_wasm.rs`: instantiating the module and resolving
the `value`, `set` and `alloc` exports is all done with `unwrap`, so a
setup that returns at all returns `Ok(Some(Box::new(Internal { .. })))`;
the argument packages the successfully created functions and the pointer
obtained from `alloc`. -/
def SimpleWasmParameter.setup (outcome : Internal) :
    Except PywrError (Option AnyState) :=
  .ok (some (.internalState outcome))

/-- The loop of `SimpleWasmParameter::compute` that assigns each parameter
value to the WASM instance's memory: for each dependency parameter, read
its stored value (propagating the read's error) and call `set`, mapping a
WASM error to `PywrError::InternalParameterError`. -/
def simpleWasmSetLoop {α : Type} (funcs : WasmFuncs) (ptr len : Nat) (s : State α) :
    List Nat → Nat → Except PywrError Unit
  | [], _ => .ok ()
  | p :: rest, idx => do
    let v ← s.get_parameter_value p
    match funcs.setCall ptr len idx v with
    | .error e =>
      .error (.internalParameterError ("Error calling WASM imported function: " ++ e ++ "."))
    | .ok () => simpleWasmSetLoop funcs ptr len s rest (idx + 1)

/-- Translation of `SimpleWasmParameter::compute` from
`src/src/parameters/simple_wasm.rs`: panic when the internal-state slot is
empty ("No internal state defined when one was expected! :(") or does not
downcast to `Internal` ("Internal state did not downcast to the correct
type! :("); otherwise write every dependency parameter's stored value into
the WASM memory, then call the `value` function, mapping WASM errors to
`PywrError::InternalParameterError`. -/
def SimpleWasmParameter.compute {α : Type} (parameters : List Nat) (s : State α)
    (internalState : Option AnyState) : ComputeResult :=
  match internalState with
  | none => .panicked "No internal state defined when one was expected! :("
  | some st =>
    match st with
    | .otherState _ => .panicked "Internal state did not downcast to the correct type! :("
    | .internalState funcs =>
      let len := parameters.length
      match simpleWasmSetLoop funcs.funcs funcs.ptr len s parameters 0 with
      | .error e => .err e
      | .ok () =>
        match funcs.funcs.valueCall funcs.ptr len with
        | .error e =>
          .err (.internalParameterError ("Error calling WASM imported function: " ++ e ++ "."))
        | .ok v => .ok v

/-- Flow vector with a single unit flow at position `j` of `n` member
nodes and zero flow elsewhere (a concrete feasible run step, since edge
flows are only constrained to be non-negative). -/
def unitFlow : Nat → Nat → List Rat
  | _, 0 => []
  | 0, n + 1 => 1 :: List.replicate n 0
  | j + 1, n + 1 => 0 :: unitFlow j n

/-- Whether a `ComputeResult` has one of the two shapes that the claim
about `SimpleWasmParameter::compute` asserts exhaustively: `Ok(value)` or
`Err(PywrError::InternalParameterError)`. -/
def resultIsOkOrInternalError : ComputeResult → Bool
  | .ok _ => true
  | .err (.internalParameterError _) => true
  | _ => false

/-- Value of an optional sub-metric of `VolumeBetweenControlCurves` with
its default when absent (upper default 1.0, lower default 0.0 in the
source's `map_or` calls). -/
def optMetricValue {α : Type} (o : Option Metric) (d : Rat) (net : Network) (s : State α) :
    Except PywrError Rat :=
  match o with
  | some m => m.get_value net s
  | none => .ok d

/-- C1: contrary to the claim, `MonthlyProfileParameter::compute` indexes
its 12-element profile with the 1-based calendar month itself, not
`month − 1`: at a December timestep (month 12) the indexing panics, and at
a January timestep (month 1) with profile values [1, 2, …, 12] the computed
value is 2, the second entry, not `month(t) = 1`. -/
theorem monthlyProfile_compute_off_by_one :
    MonthlyProfileParameter.compute [1, 2, 3, 4, 5, 6, 7, 8, 9, 10, 11, 12] ⟨334, 12⟩
        = .panicked "index out of bounds"
    ∧ MonthlyProfileParameter.compute [1, 2, 3, 4, 5, 6, 7, 8, 9, 10, 11, 12] ⟨0, 1⟩
        = .ok 2 :=
  ⟨rfl, rfl⟩

/-- C2 counterexample: `Array1Parameter::compute` at an out-of-range
timestep index (a one-element array read at timestep index 1) panics — it
does not return `Err(TimestepIndexOutOfRange)` as claimed. -/
theorem array1_out_of_range_panics :
    Array1Parameter.compute [1] ⟨1, 1⟩ 0 = .panicked "ndarray: index out of bounds"
    ∧ Array1Parameter.compute [1] ⟨1, 1⟩ 0 ≠ .err .timestepIndexOutOfRange := by
  exact ⟨rfl, by decide⟩

/-- C2 amended: `VectorParameter::compute` returns `Ok(values[t])` in range
and `Err(TimestepIndexOutOfRange)` out of range; `Array1Parameter::compute`
and `Array2Parameter::compute` return `Ok(values[t])` (respectively
`Ok(values[t, 0])`, whatever the scenario index) in range but panic at an
out-of-range timestep index. -/
theorem vector_array_compute_amended (values : List Rat) (rows : List (List Rat))
    (row : List Rat) (t : Timestep) (si si2 : Nat) (v w : Rat) :
    (values.get? t.index = some v →
      VectorParameter.compute values t si = .ok v
      ∧ Array1Parameter.compute values t si = .ok v)
    ∧ (values.get? t.index = none →
      VectorParameter.compute values t si = .err .timestepIndexOutOfRange
      ∧ Array1Parameter.compute values t si = .panicked "ndarray: index out of bounds")
    ∧ (rows.get? t.index = some row → row.get? 0 = some w →
      Array2Parameter.compute rows t si = .ok w
      ∧ Array2Parameter.compute rows t si = Array2Parameter.compute rows t si2)
    ∧ (rows.get? t.index = none →
      Array2Parameter.compute rows t si = .panicked "ndarray: index out of bounds") := by
  refine ⟨fun h => ?_, fun h => ?_, fun h h2 => ?_, fun h => ?_⟩
  · rw [List.get?_eq_getElem?] at h
    simp [VectorParameter.compute, Array1Parameter.compute, h]
  · rw [List.get?_eq_getElem?] at h
    simp [VectorParameter.compute, Array1Parameter.compute, h]
  · rw [List.get?_eq_getElem?] at h h2
    simp [Array2Parameter.compute, h, h2]
  · rw [List.get?_eq_getElem?] at h
    simp [Array2Parameter.compute, h]

/-- C2 amended witness: the amended theorem evaluated at concrete inputs —
a vector read in range and a one-row array read in range. -/
theorem vector_array_compute_amended_witness :
    VectorParameter.compute [5] ⟨0, 1⟩ 0 = .ok 5
    ∧ Array2Parameter.compute [[7]] ⟨0, 1⟩ 3 = .ok 7 :=
  ⟨((vector_array_compute_amended [5] [[7]] [7] ⟨0, 1⟩ 0 4 5 7).1 rfl).1,
   ((vector_array_compute_amended [5] [[7]] [7] ⟨0, 1⟩ 3 4 5 7).2.2.1 rfl rfl).1⟩

/-- Binding a successful `Except` computation continues with its value
(the `?` operator of the source on an `Ok`). -/
theorem except_bind_ok {ε : Type u} {α β : Type v} (a : α) (f : α → Except ε β) :
    (Except.ok a : Except ε α) >>= f = f a :=
  rfl

/-- Binding a failed `Except` computation short-circuits (the `?` operator
of the source on an `Err`). -/
theorem except_bind_error {ε : Type u} {α β : Type v} (e : ε) (f : α → Except ε β) :
    (Except.error e : Except ε α) >>= f = Except.error e :=
  rfl

/-- Evaluation shape of the `VolumeBetweenControlCurves` arm of
`Metric::get_value`: maximum volume first, then the lower curve with
default 0, then the upper curve with default 1. -/
theorem getValue_volumeBetweenControlCurves {α : Type} (net : Network) (s : State α)
    (mx : Metric) (upper lower : Option Metric) :
    Metric.get_value (.volumeBetweenControlCurves mx upper lower) net s =
      (do
        let m ← mx.get_value net s
        let l ← optMetricValue lower 0 net s
        let u ← optMetricValue upper 1 net s
        pure (m * (u - l))) := by
  cases upper <;> cases lower <;> rfl

/-- C4: `Metric::get_value` on `VolumeBetweenControlCurves` returns
`Ok(m · (u − l))` where `m`, `u` and `l` are the values of the max-volume,
upper and lower sub-metrics, the latter two defaulting to 1.0 and 0.0 when
absent; and when `u < l` and `m > 0` the returned number is negative — no
error is raised for inverted curves. -/
theorem volumeBetweenControlCurves_value {α : Type} (net : Network) (s : State α)
    (mx : Metric) (upper lower : Option Metric) (m u l : Rat)
    (hm : mx.get_value net s = .ok m)
    (hu : optMetricValue upper 1 net s = .ok u)
    (hl : optMetricValue lower 0 net s = .ok l) :
    Metric.get_value (.volumeBetweenControlCurves mx upper lower) net s = .ok (m * (u - l))
    ∧ (u < l → 0 < m → m * (u - l) < 0) := by
  constructor
  · rw [getValue_volumeBetweenControlCurves, hm, except_bind_ok, hl, except_bind_ok, hu,
      except_bind_ok]
    rfl
  · intro hul hm0
    have : u - l < 0 := by linarith
    exact mul_neg_of_pos_of_neg hm0 this

/-- C4 witness: the theorem applied with a constant max-volume metric of 2,
a present constant upper curve 0 and a present constant lower curve 1
(inverted bounds) over an empty network and state: the result is
`Ok(2 · (0 − 1))` and that value is negative. -/
theorem volumeBetweenControlCurves_value_witness :
    Metric.get_value
        (.volumeBetweenControlCurves (.constant 2) (some (.constant 0)) (some (.constant 1)))
        ⟨[], [], [], []⟩ (⟨⟨[], [], [], [], []⟩, [], [], [], ([] : List Unit)⟩ : State Unit)
      = .ok (2 * (0 - 1))
    ∧ (2 : Rat) * (0 - 1) < 0 :=
  ⟨(volumeBetweenControlCurves_value ⟨[], [], [], []⟩
      (⟨⟨[], [], [], [], []⟩, [], [], [], ([] : List Unit)⟩ : State Unit)
      (.constant 2) (some (.constant 0)) (some (.constant 1)) 2 0 1 rfl rfl rfl).1,
   (volumeBetweenControlCurves_value ⟨[], [], [], []⟩
      (⟨⟨[], [], [], [], []⟩, [], [], [], ([] : List Unit)⟩ : State Unit)
      (.constant 2) (some (.constant 0)) (some (.constant 1)) 2 0 1 rfl rfl rfl).2
    (by norm_num) (by norm_num)⟩

/-- C5: `Metric::get_value` on `NodeInFlowDeficit(n)` returns exactly
`current_max_flow(n) − in_flow(n)` with no clamping at 0; in particular the
result is negative whenever the in-flow exceeds the current maximum
flow. -/
theorem nodeInFlowDeficit_value {α : Type} (net : Network) (s : State α)
    (idx : Nat) (node : Node) (flow maxFlow : Rat)
    (hn : net.get_node idx = .ok node)
    (hf : s.get_network_state.get_node_in_flow idx = .ok flow)
    (hmf : node.get_current_max_flow s = .ok maxFlow) :
    Metric.get_value (.nodeInFlowDeficit idx) net s = .ok (maxFlow - flow)
    ∧ (maxFlow < flow → maxFlow - flow < 0) := by
  refine ⟨?_, fun h => by linarith⟩
  simp only [Metric.get_value, hn, hf, except_bind_ok, hmf, Except.map_ok]
  rfl

/-- C5 witness: a network with one node whose max flow is the scalar 3 and
a state storing in-flow 5 for it: the deficit metric evaluates to
`Ok(3 − 5)` and that difference is negative. -/
theorem nodeInFlowDeficit_value_witness :
    Metric.get_value (.nodeInFlowDeficit 0)
        ⟨[⟨.scalar 3, .scalar 3⟩], [], [], []⟩
        (⟨⟨[5], [], [], [], []⟩, [], [], [], ([] : List Unit)⟩ : State Unit)
      = .ok (3 - 5)
    ∧ (3 : Rat) - 5 < 0 :=
  ⟨(nodeInFlowDeficit_value ⟨[⟨.scalar 3, .scalar 3⟩], [], [], []⟩
      (⟨⟨[5], [], [], [], []⟩, [], [], [], ([] : List Unit)⟩ : State Unit)
      0 ⟨.scalar 3, .scalar 3⟩ 5 3 rfl rfl rfl).1,
   (nodeInFlowDeficit_value ⟨[⟨.scalar 3, .scalar 3⟩], [], [], []⟩
      (⟨⟨[5], [], [], [], []⟩, [], [], [], ([] : List Unit)⟩ : State Unit)
      0 ⟨.scalar 3, .scalar 3⟩ 5 3 rfl rfl rfl).2 (by norm_num)⟩

/-- Error results of `sum::<Result<_, _>>()` come from the summand
function: summation itself introduces no new error. -/
theorem sumResults_error_from_f (l : List Nat) (f : Nat → Except PywrError Rat)
    (e : PywrError) (h : sumResults l f = .error e) : ∃ i ∈ l, f i = .error e := by
  induction l with
  | nil => simp [sumResults] at h
  | cons a rest ih =>
    rw [sumResults] at h
    cases hfa : f a with
    | error e2 =>
      rw [hfa, except_bind_error] at h
      injection h with h
      exact ⟨a, List.mem_cons_self a rest, by rw [hfa, h]⟩
    | ok v =>
      rw [hfa, except_bind_ok] at h
      cases hrest : sumResults rest f with
      | error e2 =>
        rw [hrest, except_bind_error] at h
        injection h with h
        obtain ⟨i, hm, hfi⟩ := ih (by rw [hrest, h])
        exact ⟨i, List.mem_cons_of_mem a hm, hfi⟩
      | ok vs =>
        rw [hrest, except_bind_ok] at h
        exact absurd h (by simp [pure, Except.pure])

/-- Error shape of the modelled `NetworkState::get_node_volume`: the only
error it returns is `NodeIndexNotFound`. -/
theorem get_node_volume_error (ns : NetworkState) (i : Nat) (e : PywrError)
    (h : ns.get_node_volume i = .error e) : e = .nodeIndexNotFound i := by
  unfold NetworkState.get_node_volume at h
  split at h
  · cases h
  · injection h with h
    exact h.symm

/-- Error shape of the modelled `Network::get_node`: the only error it
returns is `NodeIndexNotFound`. -/
theorem get_node_error (net : Network) (i : Nat) (e : PywrError)
    (h : net.get_node i = .error e) : e = .nodeIndexNotFound i := by
  unfold Network.get_node at h
  split at h
  · cases h
  · injection h with h
    exact h.symm

/-- Error shape of the modelled `Network::get_aggregated_storage_node`. -/
theorem get_aggregated_storage_node_error (net : Network) (i : Nat) (e : PywrError)
    (h : net.get_aggregated_storage_node i = .error e) :
    e = .aggregatedStorageNodeIndexNotFound i := by
  unfold Network.get_aggregated_storage_node at h
  split at h
  · cases h
  · injection h with h
    exact h.symm

/-- Error shape of the modelled `State::get_parameter_value`. -/
theorem get_parameter_value_error {α : Type} (s : State α) (i : Nat) (e : PywrError)
    (h : s.get_parameter_value i = .error e) : e = .parameterIndexNotFound i := by
  unfold State.get_parameter_value at h
  split at h
  · cases h
  · injection h with h
    exact h.symm

/-- Errors of constraint-value evaluation are never `DivisionByZero`. -/
theorem constraintValue_eval_error_ne_div {α : Type} (cv : ConstraintValue) (s : State α)
    (e : PywrError) (h : cv.eval s = .error e) : e ≠ .divisionByZero := by
  cases cv with
  | none =>
    injection h with h
    rw [← h]
    exact fun hc => PywrError.noConfusion hc
  | scalar v => cases h
  | parameterRef i =>
    rw [get_parameter_value_error s i e h]
    exact fun hc => PywrError.noConfusion hc

/-- No execution path of the `AggregatedNodeProportionalVolume` arm of
`Metric::get_value` produces `DivisionByZero`: the division is performed
unconditionally (the zero-denominator check is a TODO in the source). -/
theorem aggProp_never_divisionByZero {α : Type} (net : Network) (s : State α) (idx : Nat) :
    Metric.get_value (.aggregatedNodeProportionalVolume idx) net s
      ≠ .error .divisionByZero := by
  intro hcontra
  simp only [Metric.get_value] at hcontra
  cases hn : net.get_aggregated_storage_node idx with
  | error e =>
    rw [hn, except_bind_error] at hcontra
    injection hcontra with hcontra
    rw [get_aggregated_storage_node_error net idx e hn] at hcontra
    cases hcontra
  | ok node =>
    rw [hn, except_bind_ok] at hcontra
    cases hv : sumResults node.nodes (fun i => s.get_network_state.get_node_volume i) with
    | error e =>
      rw [hv, except_bind_error] at hcontra
      injection hcontra with hcontra
      obtain ⟨i, _, hfi⟩ := sumResults_error_from_f _ _ _ hv
      rw [get_node_volume_error _ _ _ hfi] at hcontra
      cases hcontra
    | ok vol =>
      rw [hv, except_bind_ok] at hcontra
      cases hm : sumResults node.nodes (fun i => do
          let n ← net.get_node i
          n.get_current_max_volume s) with
      | error e =>
        rw [hm, except_bind_error] at hcontra
        injection hcontra with hcontra
        obtain ⟨i, _, hfi⟩ := sumResults_error_from_f _ _ _ hm
        cases hni : net.get_node i with
        | error e2 =>
          rw [hni, except_bind_error] at hfi
          injection hfi with hfi
          rw [← hfi, get_node_error _ _ _ hni] at hcontra
          cases hcontra
        | ok n =>
          rw [hni, except_bind_ok] at hfi
          subst hcontra
          exact constraintValue_eval_error_ne_div n.maxVolume s _ hfi rfl
      | ok mv =>
        rw [hm, except_bind_ok] at hcontra
        cases hcontra

/-- C3 counterexample: an aggregated storage node whose single member has
current maximum volume 0 — `Metric::get_value` returns `Ok` of the raw
quotient, not `Err(DivisionByZero)` (in the f64 source this quotient is a
non-finite number). -/
theorem aggProportionalVolume_zero_denominator_ok :
    Metric.get_value (.aggregatedNodeProportionalVolume 0)
        ⟨[⟨.scalar 0, .scalar 0⟩], [], [⟨[0]⟩], []⟩
        (⟨⟨[], [], [0], [], []⟩, [], [], [], ([] : List Unit)⟩ : State Unit)
      = .ok (0 / 0)
    ∧ Metric.get_value (.aggregatedNodeProportionalVolume 0)
        ⟨[⟨.scalar 0, .scalar 0⟩], [], [⟨[0]⟩], []⟩
        (⟨⟨[], [], [0], [], []⟩, [], [], [], ([] : List Unit)⟩ : State Unit)
      ≠ .error .divisionByZero := by
  have h : Metric.get_value (.aggregatedNodeProportionalVolume 0)
      ⟨[⟨.scalar 0, .scalar 0⟩], [], [⟨[0]⟩], []⟩
      (⟨⟨[], [], [0], [], []⟩, [], [], [], ([] : List Unit)⟩ : State Unit)
      = .ok (0 / 0) := by
    simp [Metric.get_value, sumResults, NetworkState.get_node_volume, State.get_network_state,
      Network.get_aggregated_storage_node, Network.get_node, Node.get_current_max_volume,
      ConstraintValue.eval, except_bind_ok]
  refine ⟨h, ?_⟩
  rw [h]
  exact fun hc => Except.noConfusion hc

/-- C3 amended: `Metric::get_value` on `AggregatedNodeProportionalVolume`
returns `Ok` of the sum of member volumes divided by the sum of member
current maximum volumes, with no zero-denominator check: it never returns
`Err(DivisionByZero)` (with a zero denominator the f64 division yields a
non-finite number inside `Ok`). -/
theorem aggProportionalVolume_value_amended {α : Type} (net : Network) (s : State α)
    (idx : Nat) :
    Metric.get_value (.aggregatedNodeProportionalVolume idx) net s
      ≠ .error .divisionByZero
    ∧ ∀ (node : AggregatedStorageNode) (vol mv : Rat),
        net.get_aggregated_storage_node idx = .ok node →
        sumResults node.nodes (fun i => s.get_network_state.get_node_volume i) = .ok vol →
        sumResults node.nodes (fun i => do
          let n ← net.get_node i
          n.get_current_max_volume s) = .ok mv →
        Metric.get_value (.aggregatedNodeProportionalVolume idx) net s = .ok (vol / mv) := by
  refine ⟨aggProp_never_divisionByZero net s idx, fun node vol mv h1 h2 h3 => ?_⟩
  simp only [Metric.get_value]
  rw [h1, except_bind_ok, h2, except_bind_ok, h3, except_bind_ok]
  rfl

/-- C3 amended witness: a single-member aggregated storage node with
stored volume 1 and current maximum volume 2 evaluates to `Ok(1 / 2)`. -/
theorem aggProportionalVolume_value_amended_witness :
    Metric.get_value (.aggregatedNodeProportionalVolume 0)
        ⟨[⟨.scalar 2, .scalar 2⟩], [], [⟨[0]⟩], []⟩
        (⟨⟨[], [], [1], [], []⟩, [], [], [], ([] : List Unit)⟩ : State Unit)
      = .ok (1 / 2) :=
  (aggProportionalVolume_value_amended
      ⟨[⟨.scalar 2, .scalar 2⟩], [], [⟨[0]⟩], []⟩
      (⟨⟨[], [], [1], [], []⟩, [], [], [], ([] : List Unit)⟩ : State Unit) 0).2
    ⟨[0]⟩ 1 2 (by simp [Network.get_aggregated_storage_node])
    (by simp [sumResults, NetworkState.get_node_volume, State.get_network_state, except_bind_ok])
    (by simp [sumResults, Network.get_node, Node.get_current_max_volume, ConstraintValue.eval,
      except_bind_ok])

/-- C6: the asymmetric switch starts at 0, transitions 0 → 1 when the
on-parameter is non-zero, transitions 1 → 0 when the off-parameter is
non-zero, otherwise holds its previous value; and on the S5 input
sequences on = [0,1,0,0,1], off = [0,0,0,1,0] the computed sequence is
[0,1,1,0,1]. -/
theorem asymmetricSwitch_spec :
    (∀ prev onValue offValue, prev = 0 → onValue ≠ 0 →
      asymmetricSwitchStep prev onValue offValue = 1)
    ∧ (∀ prev onValue offValue, prev = 1 → offValue ≠ 0 →
      asymmetricSwitchStep prev onValue offValue = 0)
    ∧ (∀ prev onValue offValue, prev = 0 → onValue = 0 →
      asymmetricSwitchStep prev onValue offValue = prev)
    ∧ (∀ prev onValue offValue, prev = 1 → offValue = 0 →
      asymmetricSwitchStep prev onValue offValue = prev)
    ∧ asymmetricSwitchRun 0 [0, 1, 0, 0, 1] [0, 0, 0, 1, 0] = [0, 1, 1, 0, 1] := by
  refine ⟨?_, ?_, ?_, ?_, by decide⟩
  · intro prev o f h1 h2
    subst h1
    simp [asymmetricSwitchStep, h2]
  · intro prev o f h1 h2
    subst h1
    simp [asymmetricSwitchStep, h2]
  · intro prev o f h1 h2
    subst h1
    subst h2
    simp [asymmetricSwitchStep]
  · intro prev o f h1 h2
    subst h1
    subst h2
    simp [asymmetricSwitchStep]

/-- C6 witness: the transition clauses of the theorem applied at concrete
inputs — from state 0 with on = 3 the switch moves to 1, and from state 1
with off = 2 it moves to 0. -/
theorem asymmetricSwitch_spec_witness :
    asymmetricSwitchStep 0 3 0 = 1 ∧ asymmetricSwitchStep 1 0 2 = 0 :=
  ⟨asymmetricSwitch_spec.1 0 3 0 rfl (by decide),
   asymmetricSwitch_spec.2.1 1 0 2 rfl (by decide)⟩

/-- Loss factors other than `Metric::Constant(0.0)` pass the filter of
`WaterTreatmentWorks::set_constraints` unchanged. -/
theorem wtw_filter_of_ne_zero (m : Metric) (hm : m ≠ .constant 0) :
    wtw_filter_loss_factor m = some m := by
  cases m <;> try rfl
  case constant q =>
    simp only [ne_eq, Metric.constant.injEq] at hm
    simp [wtw_filter_loss_factor, hm]

/-- C9: a loaded loss factor equal to `Metric::Constant(0.0)` results in no
factors being set on the internal aggregated node; any other present loss
factor results in `Factors::Ratio([Constant(1.0), loss_factor])` being set;
and `add_to_model` creates the "agg" aggregated node exactly when a loss
factor was given. -/
theorem wtw_loss_factor_constraints :
    wtw_set_constraints_factors (some (.constant 0)) = none
    ∧ wtw_set_constraints_factors none = none
    ∧ (∀ m : Metric, m ≠ .constant 0 →
      wtw_set_constraints_factors (some m) = some (.ratio [.constant 1, m]))
    ∧ (∀ (name : String) (lossFactorPresent : Bool),
      ((name, some "agg") ∈ (wtw_add_to_model name lossFactorPresent).aggregatedNodes
        ↔ lossFactorPresent = true)) := by
  refine ⟨by simp [wtw_set_constraints_factors, wtw_filter_loss_factor], rfl, ?_, ?_⟩
  · intro m hm
    simp [wtw_set_constraints_factors, wtw_filter_of_ne_zero m hm]
  · intro name lossFactorPresent
    cases lossFactorPresent <;> simp [wtw_add_to_model]

/-- C9 witness: the theorem's non-zero clause applied at two concrete loss
factors — a non-constant metric and a non-zero constant — and its
node-creation clause at a concrete name with the loss factor present. -/
theorem wtw_loss_factor_constraints_witness :
    wtw_set_constraints_factors (some (.nodeInFlow 4))
      = some (.ratio [.constant 1, .nodeInFlow 4])
    ∧ wtw_set_constraints_factors (some (.constant (1 / 2)))
      = some (.ratio [.constant 1, .constant (1 / 2)])
    ∧ ("wtw1", some "agg") ∈ (wtw_add_to_model "wtw1" true).aggregatedNodes := by
  refine ⟨wtw_loss_factor_constraints.2.2.1 _ (fun h => nomatch h),
    wtw_loss_factor_constraints.2.2.1 _ ?_,
    (wtw_loss_factor_constraints.2.2.2 "wtw1" true).mpr rfl⟩
  intro h
  injection h with h
  norm_num at h

/-- With all factors non-negative and all flows non-negative, the per-step
virtual-storage decrement Σ factor · flow is non-negative. -/
theorem vsFlowDecrement_nonneg : ∀ (factors flows : List Rat),
    (∀ f ∈ factors, 0 ≤ f) → (∀ q ∈ flows, 0 ≤ q) →
    0 ≤ vsFlowDecrement factors flows
  | [], _, _, _ => by simp [vsFlowDecrement]
  | _ :: _, [], _, _ => by simp [vsFlowDecrement]
  | f :: fs, q :: qs, hf, hq => by
    simp only [vsFlowDecrement]
    have h1 : 0 ≤ f := hf f (List.mem_cons_self f fs)
    have h2 : 0 ≤ q := hq q (List.mem_cons_self q qs)
    have h3 := vsFlowDecrement_nonneg fs qs
      (fun g hg => hf g (List.mem_cons_of_mem f hg))
      (fun r hr => hq r (List.mem_cons_of_mem q hr))
    exact add_nonneg (mul_nonneg h1 h2) h3

/-- With non-negative factors and reset policy `Never`, every valid run of
a virtual storage has a non-increasing volume trajectory, from any starting
volume and timestep index. -/
theorem vsRun_never_nonincreasing (factors : List Rat) (iv : Rat) (month : Nat)
    (hf : ∀ f ∈ factors, 0 ≤ f) :
    ∀ (seq : List (List Rat)) (i : Nat) (v : Rat),
      ValidFlowSequence factors.length seq →
      VolumesNonincreasing v (vsRun factors iv .never month i v seq) := by
  intro seq
  induction seq with
  | nil =>
    intro i v _
    simp [vsRun, VolumesNonincreasing]
  | cons flows rest ih =>
    intro i v hvalid
    obtain ⟨hlen, hqs⟩ := hvalid flows (List.mem_cons_self flows rest)
    simp only [vsRun, VolumesNonincreasing, vsStep, VirtualStorageReset.triggersAt,
      if_neg Bool.false_ne_true]
    refine ⟨?_, ?_⟩
    · exact sub_le_self v (vsFlowDecrement_nonneg factors flows hf hqs)
    · exact ih (i + 1) _ (fun fl hfl => hvalid fl (List.mem_cons_of_mem flows hfl))

/-- A unit flow vector has the length of the member list. -/
theorem unitFlow_length (j n : Nat) : (unitFlow j n).length = n := by
  induction n generalizing j with
  | zero => cases j <;> rfl
  | succ n ih =>
    cases j with
    | zero => simp [unitFlow]
    | succ j => simp [unitFlow, ih]

/-- All entries of a unit flow vector are non-negative. -/
theorem unitFlow_nonneg (j n : Nat) : ∀ q ∈ unitFlow j n, 0 ≤ q := by
  induction n generalizing j with
  | zero => cases j <;> simp [unitFlow]
  | succ n ih =>
    cases j with
    | zero =>
      intro q hq
      simp only [unitFlow, List.mem_cons] at hq
      rcases hq with rfl | hq
      · norm_num
      · rw [List.eq_of_mem_replicate hq]
    | succ j =>
      intro q hq
      simp only [unitFlow, List.mem_cons] at hq
      rcases hq with rfl | hq
      · exact le_refl 0
      · exact ih j q hq

/-- The decrement over an all-zero flow vector is zero. -/
theorem vsFlowDecrement_replicate (factors : List Rat) (n : Nat) :
    vsFlowDecrement factors (List.replicate n 0) = 0 := by
  induction factors generalizing n with
  | nil => simp [vsFlowDecrement]
  | cons f fs ih =>
    cases n with
    | zero => simp [vsFlowDecrement]
    | succ n =>
      simp [List.replicate_succ, vsFlowDecrement, ih]

/-- The decrement over a unit flow at member `j` is the `j`-th factor. -/
theorem vsFlowDecrement_unitFlow (factors : List Rat) (j : Nat) (h : j < factors.length) :
    vsFlowDecrement factors (unitFlow j factors.length) = factors.get ⟨j, h⟩ := by
  induction factors generalizing j with
  | nil => simp at h
  | cons f fs ih =>
    cases j with
    | zero =>
      simp [unitFlow, vsFlowDecrement, vsFlowDecrement_replicate]
    | succ j =>
      have hj : j < fs.length := Nat.lt_of_succ_lt_succ h
      simp [unitFlow, vsFlowDecrement, ih j hj]

/-- C7: for a virtual storage with reset policy `Never`, the volume
trajectory is monotonically non-increasing on every valid run (one
non-negative flow per member node per step) exactly when all factors are
non-negative: each step subtracts Σ factor · flow, and a negative factor is
exposed by the run that sends a unit flow through that member. -/
theorem virtualStorage_never_monotone_iff (factors : List Rat) (v0 : Rat) (month : Nat) :
    (∀ seq : List (List Rat), ValidFlowSequence factors.length seq →
      VolumesNonincreasing v0 (vsRun factors v0 .never month 0 v0 seq))
    ↔ ∀ f ∈ factors, 0 ≤ f := by
  constructor
  · intro h f hf
    obtain ⟨⟨j, hj⟩, hget⟩ := List.mem_iff_get.mp hf
    have hvalid : ValidFlowSequence factors.length [unitFlow j factors.length] := by
      intro flows hfl
      rw [List.mem_singleton] at hfl
      subst hfl
      exact ⟨unitFlow_length j factors.length, unitFlow_nonneg j factors.length⟩
    have hrun := h [unitFlow j factors.length] hvalid
    simp only [vsRun, vsStep, VirtualStorageReset.triggersAt, if_neg Bool.false_ne_true,
      VolumesNonincreasing, and_true] at hrun
    rw [vsFlowDecrement_unitFlow factors j hj, hget] at hrun
    linarith
  · intro hf seq hseq
    exact vsRun_never_nonincreasing factors v0 month hf seq 0 v0 hseq

/-- C7 witness: the theorem applied at concrete factors [1, 2]: both
directions instantiated — the factors are non-negative, so the concrete
two-step run with flows [[1, 0], [0, 1]] from volume 10 is
non-increasing. -/
theorem virtualStorage_never_monotone_iff_witness :
    VolumesNonincreasing 10 (vsRun [1, 2] 10 .never 1 0 10 [[1, 0], [0, 1]]) :=
  (virtualStorage_never_monotone_iff [1, 2] 10 1).mpr
    (by norm_num [List.forall_mem_cons])
    [[1, 0], [0, 1]]
    (by norm_num [ValidFlowSequence, List.forall_mem_cons])

/-- Metric evaluation never reads the per-parameter internal-state blobs of
`State` — the component that parameter `compute` calls would use — so its
result is unchanged by any replacement of them (even by blobs of a
different type). -/
theorem getValue_ignores_internal {α β : Type} (m : Metric) (net : Network)
    (ns : NetworkState) (pv : List Rat) (ipv : List Nat)
    (mpv : List (List (String × Rat))) (b1 : List α) (b2 : List β) :
    Metric.get_value m net ⟨ns, pv, ipv, mpv, b1⟩
      = Metric.get_value m net ⟨ns, pv, ipv, mpv, b2⟩ := by
  cases m with
  | volumeBetweenControlCurves mx upper lower =>
    have ihm := getValue_ignores_internal mx net ns pv ipv mpv b1 b2
    have ihl : optMetricValue lower 0 net ⟨ns, pv, ipv, mpv, b1⟩
        = optMetricValue lower 0 net ⟨ns, pv, ipv, mpv, b2⟩ := by
      cases lower with
      | none => rfl
      | some lm => exact getValue_ignores_internal lm net ns pv ipv mpv b1 b2
    have ihu : optMetricValue upper 1 net ⟨ns, pv, ipv, mpv, b1⟩
        = optMetricValue upper 1 net ⟨ns, pv, ipv, mpv, b2⟩ := by
      cases upper with
      | none => rfl
      | some um => exact getValue_ignores_internal um net ns pv ipv mpv b1 b2
    rw [getValue_volumeBetweenControlCurves, getValue_volumeBetweenControlCurves, ihm, ihl,
      ihu]
  | nodeInFlow idx => rfl
  | nodeOutFlow idx => rfl
  | nodeVolume idx => rfl
  | nodeInFlowDeficit idx => rfl
  | nodeProportionalVolume idx => rfl
  | aggregatedNodeInFlow idx => rfl
  | aggregatedNodeOutFlow idx => rfl
  | aggregatedNodeVolume idx => rfl
  | aggregatedNodeProportionalVolume idx => rfl
  | edgeFlow idx => rfl
  | parameterValue idx => rfl
  | multiParameterValue idx key => rfl
  | virtualStorageVolume idx => rfl
  | virtualStorageProportionalVolume idx => rfl
  | multiNodeInFlow indices name subName => rfl
  | constant v => rfl

/-- C8: `Metric::get_value` is a pure, deterministic read — two
evaluations against the same network and state return the same result; the
result is independent of the per-parameter internal blobs, the only state
component a parameter computation would update, so evaluation never
triggers a parameter computation; and the `ParameterValue` arm is exactly a
read of the previously stored parameter value. Non-mutation holds
structurally: the source takes `&Network` and `&State` (shared, immutable
borrows), and the embedded evaluator is a function of the state value. -/
theorem metric_get_value_pure {α β : Type} (m : Metric) (net : Network)
    (ns : NetworkState) (pv : List Rat) (ipv : List Nat)
    (mpv : List (List (String × Rat))) (b1 : List α) (b2 : List β) (idx : Nat) :
    Metric.get_value m net ⟨ns, pv, ipv, mpv, b1⟩
      = Metric.get_value m net ⟨ns, pv, ipv, mpv, b1⟩
    ∧ Metric.get_value m net ⟨ns, pv, ipv, mpv, b1⟩
      = Metric.get_value m net ⟨ns, pv, ipv, mpv, b2⟩
    ∧ Metric.get_value (.parameterValue idx) net ⟨ns, pv, ipv, mpv, b1⟩
      = State.get_parameter_value ⟨ns, pv, ipv, mpv, b1⟩ idx :=
  ⟨rfl, getValue_ignores_internal m net ns pv ipv mpv b1 b2, rfl⟩

/-- Errors of the set-loop of `SimpleWasmParameter::compute` are either
`InternalParameterError` (a failed WASM `set` call) or errors propagated by
`State::get_parameter_value` for one of the dependency parameters. -/
theorem simpleWasmSetLoop_error {α : Type} (funcs : WasmFuncs) (ptr len : Nat)
    (s : State α) :
    ∀ (ps : List Nat) (idx : Nat) (e : PywrError),
      simpleWasmSetLoop funcs ptr len s ps idx = .error e →
      (∃ msg, e = .internalParameterError msg)
      ∨ ∃ p ∈ ps, s.get_parameter_value p = .error e := by
  intro ps
  induction ps with
  | nil =>
    intro idx e h
    simp [simpleWasmSetLoop] at h
  | cons p rest ih =>
    intro idx e h
    simp only [simpleWasmSetLoop] at h
    cases hv : s.get_parameter_value p with
    | error e2 =>
      rw [hv, except_bind_error] at h
      injection h with h
      exact Or.inr ⟨p, List.mem_cons_self p rest, by rw [hv, h]⟩
    | ok v =>
      rw [hv, except_bind_ok] at h
      cases hc : funcs.setCall ptr len idx v with
      | error msg =>
        rw [hc] at h
        injection h with h
        exact Or.inl ⟨"Error calling WASM imported function: " ++ msg ++ ".", h.symm⟩
      | ok u =>
        cases u
        rw [hc] at h
        rcases ih (idx + 1) e h with hint | ⟨q, hq, hqe⟩
        · exact Or.inl hint
        · exact Or.inr ⟨q, List.mem_cons_of_mem p hq, hqe⟩

/-- C10 counterexample: with the internal state from a successful setup but
a state in which dependency parameter 0 has no stored value, compute
returns `Err(ParameterIndexNotFound)` — an error that is neither `Ok` nor
`InternalParameterError`, so the claimed result shape is not exhaustive. -/
theorem simpleWasm_compute_state_read_error :
    SimpleWasmParameter.compute [0]
        (⟨⟨[], [], [], [], []⟩, [], [], [], []⟩ : State Unit)
        (some (.internalState ⟨⟨fun _ _ _ _ => .ok (), fun _ _ => .ok 0⟩, 0⟩))
      = .err (.parameterIndexNotFound 0)
    ∧ resultIsOkOrInternalError
        (SimpleWasmParameter.compute [0]
          (⟨⟨[], [], [], [], []⟩, [], [], [], []⟩ : State Unit)
          (some (.internalState ⟨⟨fun _ _ _ _ => .ok (), fun _ _ => .ok 0⟩, 0⟩)))
      = false :=
  ⟨rfl, rfl⟩

/-- C10 amended: with the internal state produced by a successful setup,
the two panic branches of `SimpleWasmParameter::compute` (absent internal
state, failed downcast) are unreachable, and the result is `Ok(value)`,
`Err(InternalParameterError)` from a WASM call, or the error returned by
reading one of the dependency parameters' stored values from state. -/
theorem simpleWasm_compute_amended {α : Type} (outcome : Internal) (params : List Nat)
    (s : State α) (internalState : Option AnyState)
    (hsetup : SimpleWasmParameter.setup outcome = .ok internalState) :
    (∀ msg, SimpleWasmParameter.compute params s internalState ≠ .panicked msg)
    ∧ ∀ e, SimpleWasmParameter.compute params s internalState = .err e →
        (∃ msg, e = .internalParameterError msg)
        ∨ ∃ p ∈ params, s.get_parameter_value p = .error e := by
  have hist : internalState = some (.internalState outcome) := by
    unfold SimpleWasmParameter.setup at hsetup
    injection hsetup with h
    exact h.symm
  subst hist
  constructor
  · intro msg hcontra
    simp only [SimpleWasmParameter.compute] at hcontra
    cases hl : simpleWasmSetLoop outcome.funcs outcome.ptr params.length s params 0 with
    | error e =>
      rw [hl] at hcontra
      cases hcontra
    | ok u =>
      cases u
      rw [hl] at hcontra
      cases hv : outcome.funcs.valueCall outcome.ptr params.length with
      | error e2 =>
        rw [hv] at hcontra
        cases hcontra
      | ok v =>
        rw [hv] at hcontra
        cases hcontra
  · intro e he
    simp only [SimpleWasmParameter.compute] at he
    cases hl : simpleWasmSetLoop outcome.funcs outcome.ptr params.length s params 0 with
    | error e2 =>
      rw [hl] at he
      injection he with he
      exact simpleWasmSetLoop_error outcome.funcs outcome.ptr params.length s params 0 e
        (by rw [hl, he])
    | ok u =>
      cases u
      rw [hl] at he
      cases hv : outcome.funcs.valueCall outcome.ptr params.length with
      | error msg =>
        rw [hv] at he
        injection he with he
        exact Or.inl ⟨"Error calling WASM imported function: " ++ msg ++ ".", he.symm⟩
      | ok v =>
        rw [hv] at he
        cases he

/-- C10 amended witness: the theorem applied to a concrete setup outcome
(with WASM calls that succeed), an empty dependency list and an empty
state: compute does not hit the missing-internal-state panic branch. -/
theorem simpleWasm_compute_amended_witness :
    SimpleWasmParameter.compute []
        (⟨⟨[], [], [], [], []⟩, [], [], [], []⟩ : State Unit)
        (some (.internalState ⟨⟨fun _ _ _ _ => .ok (), fun _ _ => .ok 5⟩, 0⟩))
      ≠ .panicked "No internal state defined when one was expected! :(" :=
  (simpleWasm_compute_amended ⟨⟨fun _ _ _ _ => .ok (), fun _ _ => .ok 5⟩, 0⟩ []
      (⟨⟨[], [], [], [], []⟩, [], [], [], []⟩ : State Unit)
      (some (.internalState ⟨⟨fun _ _ _ _ => .ok (), fun _ _ => .ok 5⟩, 0⟩)) rfl).1
    "No internal state defined when one was expected! :("
